import Mathlib

/-
Verification of the audio-proxy device implementation
(src/audio_proxy/service/DeviceImpl.cpp) against its specification.

The device's mutable state relevant to the specified behaviour consists of
the patch-handle allocator `gNextAudioPatchHandle` (an integer counter
initialised to 1, DeviceImpl.cpp line 33) and the set of currently-open
patch handles `mAudioPatchHandles` (a std::set).  We embed that state as a
structure over `Nat` / `Finset Nat`.  The C++ handle type is a 32-bit
signed integer whose overflow on increment is undefined behaviour; the
counter is modelled as an unbounded `Nat`, which coincides with the C++
semantics on every trace that stays below 2^31 allocations (overflow has
no defined behaviour to embed).  Where the source performs a defined
narrowing conversion (`static_cast<int32_t>` in `toAidlAudioConfig`,
lines 35-43), the two's-complement conversion is modelled exactly.

Methods of DeviceImpl are embedded as explicit state-passing functions:
a method that leaves the device fields untouched returns its input state
unchanged.  External collaborators (the BusStreamProvider) are abstracted
at their interface boundary: `close` takes the integer that
`cleanAndCountStreamOuts()` returns, and `openOutputStream` takes the
provider's stream-opening function as a parameter.
-/

namespace DeviceImpl

/-- Status codes of the HIDL audio Result enum used by DeviceImpl. -/
inductive Result where
  | OK
  | NOT_INITIALIZED
  | INVALID_ARGUMENTS
  | INVALID_STATE
  | NOT_SUPPORTED
deriving DecidableEq, Repr

/-- Mutable state of the device: the handle allocator
`gNextAudioPatchHandle` (DeviceImpl.cpp line 33, initialised to 1) and
the open-handle set `mAudioPatchHandles`. -/
structure DeviceState where
  gNextAudioPatchHandle : Nat
  mAudioPatchHandles : Finset Nat
deriving DecidableEq

/-- Initial state: `gNextAudioPatchHandle = 1` (line 33) and an empty
`mAudioPatchHandles` set. -/
def initState : DeviceState :=
  { gNextAudioPatchHandle := 1, mAudioPatchHandles := ∅ }

/-- DeviceImpl::createAudioPatch (lines 120-127):
`handle = gNextAudioPatchHandle++; mAudioPatchHandles.insert(handle);
cb(Result::OK, handle)`.  The port-configuration arguments are accepted
opaquely and ignored by the source, so they are omitted here. -/
def createAudioPatch (s : DeviceState) : Result × Nat × DeviceState :=
  let handle := s.gNextAudioPatchHandle
  (Result.OK, handle,
    { gNextAudioPatchHandle := s.gNextAudioPatchHandle + 1,
      mAudioPatchHandles := insert handle s.mAudioPatchHandles })

/-- DeviceImpl::releaseAudioPatch (lines 129-132):
`removed = mAudioPatchHandles.erase(patch);
return removed > 0 ? Result::OK : Result::INVALID_ARGUMENTS`.
`std::set::erase` removes the element when present and reports how many
elements were removed; this is embedded as a membership test guarding the
erase. -/
def releaseAudioPatch (s : DeviceState) (patch : Nat) : Result × DeviceState :=
  if patch ∈ s.mAudioPatchHandles then
    (Result.OK, { s with mAudioPatchHandles := s.mAudioPatchHandles.erase patch })
  else
    (Result.INVALID_ARGUMENTS, s)

/-- DeviceImpl::updateAudioPatch (lines 177-188): if erasing
`previousPatch` removed nothing, answer `(INVALID_ARGUMENTS, 0)` with no
state change; otherwise allocate `newPatch = gNextAudioPatchHandle++`,
insert it and answer `(OK, newPatch)`. -/
def updateAudioPatch (s : DeviceState) (previousPatch : Nat) :
    Result × Nat × DeviceState :=
  if previousPatch ∈ s.mAudioPatchHandles then
    let s1 := { s with mAudioPatchHandles := s.mAudioPatchHandles.erase previousPatch }
    let newPatch := s1.gNextAudioPatchHandle
    (Result.OK, newPatch,
      { gNextAudioPatchHandle := s1.gNextAudioPatchHandle + 1,
        mAudioPatchHandles := insert newPatch s1.mAudioPatchHandles })
  else
    (Result.INVALID_ARGUMENTS, 0, s)

/-- DeviceImpl::initCheck (line 53): `return Result::OK`, touching no
device state. -/
def initCheck (s : DeviceState) : Result × DeviceState :=
  (Result.OK, s)

/-- DeviceImpl::close (lines 190-194):
`return mBusStreamProvider.cleanAndCountStreamOuts() == 0 ? Result::OK
: Result::INVALID_STATE`.  The provider is external; the integer it
returns is taken as the parameter `cleanAndCountStreamOuts`.  No device
field is read or written. -/
def close (cleanAndCountStreamOuts : Nat) (s : DeviceState) :
    Result × DeviceState :=
  (if cleanAndCountStreamOuts = 0 then Result.OK else Result.INVALID_STATE, s)

/-- Registry invariant: every open handle is strictly below the
allocator counter.  It holds in `initState` (the set is empty) and is
preserved by every patch operation, so it holds in every reachable
device state. -/
def StateInv (s : DeviceState) : Prop :=
  ∀ x ∈ s.mAudioPatchHandles, x < s.gNextAudioPatchHandle

instance (s : DeviceState) : Decidable (StateInv s) :=
  inferInstanceAs (Decidable (∀ x ∈ s.mAudioPatchHandles, x < s.gNextAudioPatchHandle))

/-- C5: releaseAudioPatch succeeds exactly when the handle is open, in
which case it removes exactly that handle (erase); the allocator counter
is never touched, a failed release mutates nothing (erasing an absent
element is the identity), and a second release of the same handle
immediately after always fails with INVALID_ARGUMENTS. -/
theorem releaseAudioPatch_ok_iff_open (s : DeviceState) (h : Nat) :
    ((releaseAudioPatch s h).1 = Result.OK ↔ h ∈ s.mAudioPatchHandles) ∧
    (releaseAudioPatch s h).2.mAudioPatchHandles = s.mAudioPatchHandles.erase h ∧
    (releaseAudioPatch s h).2.gNextAudioPatchHandle = s.gNextAudioPatchHandle ∧
    (releaseAudioPatch (releaseAudioPatch s h).2 h).1 = Result.INVALID_ARGUMENTS := by
  by_cases hm : h ∈ s.mAudioPatchHandles <;>
    simp [releaseAudioPatch, hm, Finset.erase_eq_self]

/-- C4: updateAudioPatch on a handle that is not open fails with
INVALID_ARGUMENTS (reporting handle 0), changes no state, and consumes
no handle: a createAudioPatch performed right after the failed update
behaves exactly as it would have on the original state. -/
theorem updateAudioPatch_notOpen_fails (s : DeviceState) (h : Nat)
    (hno : h ∉ s.mAudioPatchHandles) :
    updateAudioPatch s h = (Result.INVALID_ARGUMENTS, 0, s) ∧
    createAudioPatch (updateAudioPatch s h).2.2 = createAudioPatch s := by
  simp [updateAudioPatch, hno]

/-- Witness for C4 at the concrete state `initState` and handle 5. -/
theorem updateAudioPatch_notOpen_fails_witness :
    5 ∉ initState.mAudioPatchHandles ∧
    (updateAudioPatch initState 5 = (Result.INVALID_ARGUMENTS, 0, initState) ∧
     createAudioPatch (updateAudioPatch initState 5).2.2 = createAudioPatch initState) :=
  ⟨by decide, updateAudioPatch_notOpen_fails initState 5 (by decide)⟩

/-- C2: close succeeds iff the provider's clean-and-count operation
reports zero registered output streams; with a nonzero count it answers
INVALID_STATE; in both cases the device state is returned unchanged (no
teardown, patch handles untouched). -/
theorem close_ok_iff_no_streams (cleanAndCount : Nat) (s : DeviceState) :
    ((close cleanAndCount s).1 = Result.OK ↔ cleanAndCount = 0) ∧
    ((close cleanAndCount s).1 = Result.INVALID_STATE ↔ cleanAndCount ≠ 0) ∧
    (close cleanAndCount s).2 = s := by
  by_cases hc : cleanAndCount = 0 <;> simp [close, hc]

/-- C10: initCheck returns OK in every device state and performs no
mutation. -/
theorem initCheck_always_ok (s : DeviceState) :
    initCheck s = (Result.OK, s) := rfl

/-- C3: in any device state satisfying the registry invariant (which
holds in every reachable state, see `runPatchOps_invariant`), updating
an open handle `h` succeeds with a fresh handle different from `h`, and
the open set afterwards is `h` removed and the new handle inserted; a
subsequent release of `h` fails with INVALID_ARGUMENTS while a release
of the new handle succeeds. -/
theorem updateAudioPatch_open_replaces (s : DeviceState) (h : Nat)
    (hinv : StateInv s) (hopen : h ∈ s.mAudioPatchHandles) :
    (updateAudioPatch s h).1 = Result.OK ∧
    (updateAudioPatch s h).2.1 ≠ h ∧
    (updateAudioPatch s h).2.2.mAudioPatchHandles
      = insert (updateAudioPatch s h).2.1 (s.mAudioPatchHandles.erase h) ∧
    (releaseAudioPatch (updateAudioPatch s h).2.2 h).1 = Result.INVALID_ARGUMENTS ∧
    (releaseAudioPatch (updateAudioPatch s h).2.2 (updateAudioPatch s h).2.1).1
      = Result.OK := by
  have hlt : h < s.gNextAudioPatchHandle := hinv h hopen
  have hne : s.gNextAudioPatchHandle ≠ h := Nat.ne_of_gt hlt
  simp [updateAudioPatch, releaseAudioPatch, hopen, hne, Ne.symm hne]

/-- Witness for C3 at the concrete state with counter 3 and open
handles 1 and 2, updating handle 1. -/
theorem updateAudioPatch_open_replaces_witness :
    StateInv ⟨3, {1, 2}⟩ ∧ 1 ∈ DeviceState.mAudioPatchHandles ⟨3, {1, 2}⟩ ∧
    ((updateAudioPatch ⟨3, {1, 2}⟩ 1).1 = Result.OK ∧
     (updateAudioPatch ⟨3, {1, 2}⟩ 1).2.1 ≠ 1 ∧
     (updateAudioPatch ⟨3, {1, 2}⟩ 1).2.2.mAudioPatchHandles
       = insert (updateAudioPatch ⟨3, {1, 2}⟩ 1).2.1
           ((DeviceState.mAudioPatchHandles ⟨3, {1, 2}⟩).erase 1) ∧
     (releaseAudioPatch (updateAudioPatch ⟨3, {1, 2}⟩ 1).2.2 1).1
       = Result.INVALID_ARGUMENTS ∧
     (releaseAudioPatch (updateAudioPatch ⟨3, {1, 2}⟩ 1).2.2
        (updateAudioPatch ⟨3, {1, 2}⟩ 1).2.1).1 = Result.OK) :=
  ⟨by decide, by decide, updateAudioPatch_open_replaces ⟨3, {1, 2}⟩ 1 (by decide) (by decide)⟩

/-- Trace alphabet for the patch registry: the two mutating calls whose
interleavings claim C1 quantifies over. -/
inductive PatchOp where
  | create
  | release (handle : Nat)
deriving DecidableEq, Repr

/-- Observable outcome of one patch call: the status returned through
the callback together with the handle created or the handle that release
was asked to remove. -/
inductive PatchEvent where
  | created (r : Result) (handle : Nat)
  | released (r : Result) (handle : Nat)
deriving DecidableEq, Repr

/-- Runs a sequence of createAudioPatch / releaseAudioPatch calls from a
given device state, returning the final state and the list of observable
outcomes in call order. -/
def runPatchOps (s : DeviceState) : List PatchOp → DeviceState × List PatchEvent
  | [] => (s, [])
  | PatchOp.create :: ops =>
      let r := createAudioPatch s
      let rest := runPatchOps r.2.2 ops
      (rest.1, PatchEvent.created r.1 r.2.1 :: rest.2)
  | PatchOp.release h :: ops =>
      let r := releaseAudioPatch s h
      let rest := runPatchOps r.2 ops
      (rest.1, PatchEvent.released r.1 h :: rest.2)

/-- Handles returned by the create calls of a trace, in allocation
order. -/
def allocatedHandles : List PatchEvent → List Nat
  | [] => []
  | PatchEvent.created _ h :: evs => h :: allocatedHandles evs
  | PatchEvent.released _ _ :: evs => allocatedHandles evs

/-- Every create call in the trace reported Result.OK. -/
def CreatesSucceed : List PatchEvent → Prop
  | [] => True
  | PatchEvent.created r _ :: evs => r = Result.OK ∧ CreatesSucceed evs
  | PatchEvent.released _ _ :: evs => CreatesSucceed evs

/-- No handle that a release call successfully removed is ever returned
by a later create call of the trace. -/
def NoReuseAfterRelease : List PatchEvent → Prop
  | [] => True
  | PatchEvent.created _ _ :: evs => NoReuseAfterRelease evs
  | PatchEvent.released r h :: evs =>
      (r = Result.OK → h ∉ allocatedHandles evs) ∧ NoReuseAfterRelease evs

/-- Shared invariant lemma: from any state whose open handles sit below
the allocator counter, every create/release trace preserves the
invariant, never decreases the counter, allocates only handles at or
above the starting counter, allocates in strictly increasing order with
every create reporting OK, and never re-allocates a successfully
released handle. -/
theorem runPatchOps_invariant (ops : List PatchOp) :
    ∀ s : DeviceState, StateInv s →
      StateInv (runPatchOps s ops).1 ∧
      s.gNextAudioPatchHandle ≤ (runPatchOps s ops).1.gNextAudioPatchHandle ∧
      (∀ h ∈ allocatedHandles (runPatchOps s ops).2, s.gNextAudioPatchHandle ≤ h) ∧
      List.Chain' (· < ·) (allocatedHandles (runPatchOps s ops).2) ∧
      CreatesSucceed (runPatchOps s ops).2 ∧
      NoReuseAfterRelease (runPatchOps s ops).2 := by
  induction ops with
  | nil =>
      intro s hs
      exact ⟨hs, le_refl _, by simp [runPatchOps, allocatedHandles],
        by simp [runPatchOps, allocatedHandles],
        by simp [runPatchOps, CreatesSucceed],
        by simp [runPatchOps, NoReuseAfterRelease]⟩
  | cons op ops ih =>
      intro s hs
      cases op with
      | create =>
          set s' : DeviceState :=
            { gNextAudioPatchHandle := s.gNextAudioPatchHandle + 1,
              mAudioPatchHandles :=
                insert s.gNextAudioPatchHandle s.mAudioPatchHandles } with hsdef
          have hinv' : StateInv s' := by
            intro x hx
            rcases Finset.mem_insert.mp hx with hx | hx
            · simp [hsdef, hx]
            · exact Nat.lt_succ_of_lt (hs x hx)
          obtain ⟨h1, h2, h3, h4, h5, h6⟩ := ih s' hinv'
          have hrun : runPatchOps s (PatchOp.create :: ops)
              = ((runPatchOps s' ops).1,
                 PatchEvent.created Result.OK s.gNextAudioPatchHandle
                   :: (runPatchOps s' ops).2) := by
            simp [runPatchOps, createAudioPatch, hsdef]
          have hnext' : s'.gNextAudioPatchHandle = s.gNextAudioPatchHandle + 1 := rfl
          refine ⟨by rw [hrun]; exact h1, ?_, ?_, ?_, ?_, ?_⟩
          · rw [hrun]
            exact Nat.le_of_succ_le (by simpa [hnext'] using h2)
          · rw [hrun]
            intro h hh
            simp only [allocatedHandles, List.mem_cons] at hh
            rcases hh with hh | hh
            · omega
            · have := h3 h hh
              omega
          · rw [hrun]
            simp only [allocatedHandles]
            refine List.chain'_cons'.mpr ⟨?_, h4⟩
            intro y hy
            have hymem : y ∈ allocatedHandles (runPatchOps s' ops).2 :=
              List.mem_of_mem_head? hy
            have := h3 y hymem
            omega
          · rw [hrun]
            exact ⟨rfl, h5⟩
          · rw [hrun]
            exact h6
      | release h =>
          by_cases hm : h ∈ s.mAudioPatchHandles
          · set s' : DeviceState :=
              { s with mAudioPatchHandles := s.mAudioPatchHandles.erase h } with hsdef
            have hinv' : StateInv s' := by
              intro x hx
              exact hs x (Finset.mem_of_mem_erase hx)
            obtain ⟨h1, h2, h3, h4, h5, h6⟩ := ih s' hinv'
            have hrun : runPatchOps s (PatchOp.release h :: ops)
                = ((runPatchOps s' ops).1,
                   PatchEvent.released Result.OK h :: (runPatchOps s' ops).2) := by
              simp [runPatchOps, releaseAudioPatch, hm, hsdef]
            have hnext' : s'.gNextAudioPatchHandle = s.gNextAudioPatchHandle := rfl
            refine ⟨by rw [hrun]; exact h1, ?_, ?_, ?_, ?_, ?_⟩
            · rw [hrun]; simpa [hnext'] using h2
            · rw [hrun]
              simpa [allocatedHandles, hnext'] using h3
            · rw [hrun]
              simpa [allocatedHandles] using h4
            · rw [hrun]
              simpa [CreatesSucceed] using h5
            · rw [hrun]
              refine ⟨fun _ hcontra => ?_, h6⟩
              have hlt : h < s.gNextAudioPatchHandle := hs h hm
              have := h3 h hcontra
              omega
          · obtain ⟨h1, h2, h3, h4, h5, h6⟩ := ih s hs
            have hrun : runPatchOps s (PatchOp.release h :: ops)
                = ((runPatchOps s ops).1,
                   PatchEvent.released Result.INVALID_ARGUMENTS h
                     :: (runPatchOps s ops).2) := by
              simp [runPatchOps, releaseAudioPatch, hm]
            refine ⟨by rw [hrun]; exact h1, by rw [hrun]; exact h2, ?_, ?_, ?_, ?_⟩
            · rw [hrun]; simpa [allocatedHandles] using h3
            · rw [hrun]; simpa [allocatedHandles] using h4
            · rw [hrun]; simpa [CreatesSucceed] using h5
            · rw [hrun]
              exact ⟨fun hcontra => absurd hcontra (by simp), h6⟩

/-- C1: along every interleaving of createAudioPatch and
releaseAudioPatch calls from the initial device state, every create
reports Result.OK, the handles it returns are strictly increasing in
allocation order (hence pairwise distinct), and a successfully released
handle is never returned by a later allocation. -/
theorem createAudioPatch_fresh_monotonic (ops : List PatchOp) :
    CreatesSucceed (runPatchOps initState ops).2 ∧
    List.Chain' (· < ·) (allocatedHandles (runPatchOps initState ops).2) ∧
    List.Pairwise (· ≠ ·) (allocatedHandles (runPatchOps initState ops).2) ∧
    NoReuseAfterRelease (runPatchOps initState ops).2 := by
  have hinv : StateInv initState := by
    intro x hx
    simp [initState] at hx
  obtain ⟨-, -, -, h4, h5, h6⟩ := runPatchOps_invariant ops initState hinv
  refine ⟨h5, h4, ?_, h6⟩
  have hpw : List.Pairwise (· < ·) (allocatedHandles (runPatchOps initState ops).2) :=
    List.chain'_iff_pairwise.mp h4
  exact hpw.imp Nat.ne_of_lt

/-- Framework-side (HIDL) audio configuration, the fields that
`toAidlAudioConfig` reads: `format` (an enum backed by uint32_t),
`sampleRateHz` (uint32_t) and `channelMask` (a uint32_t bitfield).
Each field is a `Nat` carrying the unsigned 32-bit value. -/
structure AudioConfig where
  format : Nat
  sampleRateHz : Nat
  channelMask : Nat
deriving DecidableEq, Repr

/-- Bus-side (AIDL) audio configuration produced by `toAidlAudioConfig`:
`sampleRateHz` is declared int32_t in the source (line 38); the format
and channel-mask enums are backed by a 32-bit signed integer.  Each
field is an `Int` carrying the signed 32-bit value. -/
structure AidlAudioConfig where
  format : Int
  sampleRateHz : Int
  channelMask : Int
deriving DecidableEq, Repr

/-- Two's-complement conversion of an unsigned value to int32, the
semantics of `static_cast<int32_t>` on a uint32_t value: reduce modulo
2^32, then values at or above 2^31 wrap to negatives. -/
def toInt32 (n : Nat) : Int :=
  if n % 2 ^ 32 < 2 ^ 31 then ((n % 2 ^ 32 : Nat) : Int)
  else ((n % 2 ^ 32 : Nat) : Int) - 2 ^ 32

/-- toAidlAudioConfig (DeviceImpl.cpp lines 35-43): builds the AIDL
config by casting each field of the HIDL config —
`static_cast<AidlAudioFormat>(format)`,
`static_cast<int32_t>(sampleRateHz)`,
`static_cast<AidlAudioChannelMask>(channelMask)`.  All three are
uint32-to-int32-backed conversions, embedded by `toInt32`. -/
def toAidlAudioConfig (hidl_config : AudioConfig) : AidlAudioConfig :=
  { format := toInt32 hidl_config.format,
    sampleRateHz := toInt32 hidl_config.sampleRateHz,
    channelMask := toInt32 hidl_config.channelMask }

/-- Helper: `toInt32` preserves the value exactly below 2^31. -/
theorem toInt32_eq_of_lt {n : Nat} (hn : n < 2 ^ 31) : toInt32 n = (n : Int) := by
  have hmod : n % 2 ^ 32 = n := Nat.mod_eq_of_lt (by omega)
  rw [toInt32, if_pos (by omega), hmod]

/-- Helper: `toInt32` preserves the value modulo 2^32 (the 32-bit
pattern). -/
theorem toInt32_emod (n : Nat) : toInt32 n % 2 ^ 32 = (n : Int) % 2 ^ 32 := by
  unfold toInt32
  split <;> omega

/-- Counterexample to C7 as stated: the requested sample rate is a
uint32_t while the bus field is int32_t, so a sample rate of 2^31 is not
preserved — the cast on source line 38 wraps it to -2^31. -/
theorem toAidlAudioConfig_sampleRate_not_exact :
    (toAidlAudioConfig { format := 1, sampleRateHz := 2 ^ 31, channelMask := 3 }).sampleRateHz
      ≠ ((2 ^ 31 : Nat) : Int) := by decide

/-- C7 (amended): the translation is a pure total function with no
failure outcome; every field is re-encoded preserving its 32-bit
pattern (value modulo 2^32, two's complement), and for sample rates
below 2^31 — every rate int32 can represent — the numeric value of
sampleRateHz is preserved exactly. -/
theorem toAidlAudioConfig_preserves_fields (c : AudioConfig)
    (hrate : c.sampleRateHz < 2 ^ 31) :
    (toAidlAudioConfig c).sampleRateHz = (c.sampleRateHz : Int) ∧
    (toAidlAudioConfig c).format % 2 ^ 32 = (c.format : Int) % 2 ^ 32 ∧
    (toAidlAudioConfig c).channelMask % 2 ^ 32 = (c.channelMask : Int) % 2 ^ 32 ∧
    (toAidlAudioConfig c).sampleRateHz % 2 ^ 32 = (c.sampleRateHz : Int) % 2 ^ 32 :=
  ⟨by simp [toAidlAudioConfig, toInt32_eq_of_lt hrate],
   toInt32_emod c.format, toInt32_emod c.channelMask, toInt32_emod c.sampleRateHz⟩

/-- Witness for C7 (amended) at a 48 kHz stereo PCM-16 config. -/
theorem toAidlAudioConfig_preserves_fields_witness :
    (48000 : Nat) < 2 ^ 31 ∧
    ((toAidlAudioConfig ⟨1, 48000, 3⟩).sampleRateHz = ((48000 : Nat) : Int) ∧
     (toAidlAudioConfig ⟨1, 48000, 3⟩).format % 2 ^ 32 = ((1 : Nat) : Int) % 2 ^ 32 ∧
     (toAidlAudioConfig ⟨1, 48000, 3⟩).channelMask % 2 ^ 32 = ((3 : Nat) : Int) % 2 ^ 32 ∧
     (toAidlAudioConfig ⟨1, 48000, 3⟩).sampleRateHz % 2 ^ 32
       = ((48000 : Nat) : Int) % 2 ^ 32) :=
  ⟨by decide, toAidlAudioConfig_preserves_fields ⟨1, 48000, 3⟩ (by decide)⟩

/-- Proxy stream object built by openOutputStream (lines 100-101):
pairs the bus stream the provider returned with the device's fixed
buffer-size and latency parameters. -/
structure StreamOutImpl (BusStream : Type) where
  mStream : BusStream
  mBufferSizeMs : Nat
  mLatencyMs : Nat
deriving DecidableEq, Repr

/-- DeviceImpl::openOutputStream (lines 89-105): asks the external
provider for a bus stream at the device's bus address with the
translated config and int32-cast flags; when the provider delivers one
(the DCHECK on line 99 makes a null stream a fatal precondition
violation, embedded as `none` — no defined result), wraps it with the
fixed buffer/latency parameters and answers
`(Result::OK, streamOut, config)` with the requested config echoed
back untouched.  The provider-side registration `onStreamOutCreated`
mutates only provider state, which is external to `DeviceState`. -/
def openOutputStream (BusStream Address : Type)
    (provider : Address → AidlAudioConfig → Int → Option BusStream)
    (mBufferSizeMs mLatencyMs : Nat) (busAddress : Address)
    (config : AudioConfig) (flags : Nat) :
    Option (Result × StreamOutImpl BusStream × AudioConfig) :=
  match provider busAddress (toAidlAudioConfig config) (toInt32 flags) with
  | some busOutputStream =>
      some (Result.OK, ⟨busOutputStream, mBufferSizeMs, mLatencyMs⟩, config)
  | none => none

/-- C6: whenever the provider returns a (non-null) bus stream,
openOutputStream succeeds with a stream session wrapping that bus
stream and echoes the requested config back, field for field unmodified,
as the negotiated config. -/
theorem openOutputStream_echoes_config (BusStream Address : Type)
    (provider : Address → AidlAudioConfig → Int → Option BusStream)
    (buf lat : Nat) (addr : Address) (config : AudioConfig) (flags : Nat)
    (bus : BusStream)
    (hp : provider addr (toAidlAudioConfig config) (toInt32 flags) = some bus) :
    openOutputStream BusStream Address provider buf lat addr config flags
      = some (Result.OK, ⟨bus, buf, lat⟩, config) := by
  simp [openOutputStream, hp]

/-- Witness for C6 with a provider that always delivers a (unit) bus
stream, at a 48 kHz stereo config. -/
theorem openOutputStream_echoes_config_witness :
    (fun (_ : Unit) (_ : AidlAudioConfig) (_ : Int) => some ())
        () (toAidlAudioConfig ⟨1, 48000, 3⟩) (toInt32 0) = some () ∧
    openOutputStream Unit Unit (fun _ _ _ => some ()) 10 20 () ⟨1, 48000, 3⟩ 0
      = some (Result.OK, ⟨(), 10, 20⟩, ⟨1, 48000, 3⟩) :=
  ⟨rfl, openOutputStream_echoes_config Unit Unit (fun _ _ _ => some ())
      10 20 () ⟨1, 48000, 3⟩ 0 () rfl⟩

set_option linter.unusedVariables false

/-- DeviceImpl::setMasterVolume (lines 55-58): ignores its float
argument and returns NOT_SUPPORTED; no device field is touched.  The
volume argument type is opaque to the behaviour, so it is a type
parameter. -/
def setMasterVolume (Volume : Type) (s : DeviceState) (volume : Volume) :
    Result × DeviceState :=
  (Result.NOT_SUPPORTED, s)

/-- DeviceImpl::getMasterVolume (lines 60-63): answers
`(NOT_SUPPORTED, 0.f)`; the float constant 0.f is exactly the value
zero, embedded as `(0 : Int)`. -/
def getMasterVolume (s : DeviceState) : Result × Int × DeviceState :=
  (Result.NOT_SUPPORTED, 0, s)

/-- DeviceImpl::setMicMute (lines 65-67): NOT_SUPPORTED, no state
change. -/
def setMicMute (s : DeviceState) (mute : Bool) : Result × DeviceState :=
  (Result.NOT_SUPPORTED, s)

/-- DeviceImpl::getMicMute (lines 69-72): `(NOT_SUPPORTED, false)`. -/
def getMicMute (s : DeviceState) : Result × Bool × DeviceState :=
  (Result.NOT_SUPPORTED, false, s)

/-- DeviceImpl::setMasterMute (lines 74-76): NOT_SUPPORTED, no state
change. -/
def setMasterMute (s : DeviceState) (mute : Bool) : Result × DeviceState :=
  (Result.NOT_SUPPORTED, s)

/-- DeviceImpl::getMasterMute (lines 78-81): `(NOT_SUPPORTED, false)`. -/
def getMasterMute (s : DeviceState) : Result × Bool × DeviceState :=
  (Result.NOT_SUPPORTED, false, s)

/-- DeviceImpl::getInputBufferSize (lines 83-87): ignores the config and
answers `(NOT_SUPPORTED, 0)` (a uint64 size). -/
def getInputBufferSize (s : DeviceState) (config : AudioConfig) :
    Result × Nat × DeviceState :=
  (Result.NOT_SUPPORTED, 0, s)

/-- DeviceImpl::openInputStream (lines 107-115): answers
`(NOT_SUPPORTED, sp<IStreamIn>(), config)` — a null stream pointer
(`none`) and the requested config echoed back; no session is created
and no device field is touched. -/
def openInputStream (StreamIn : Type) (s : DeviceState) (config : AudioConfig) :
    Result × Option StreamIn × AudioConfig × DeviceState :=
  (Result.NOT_SUPPORTED, none, config, s)

/-- DeviceImpl::getAudioPort (lines 134-138): answers
`(NOT_SUPPORTED, port)` — the queried port structure is passed back
unmodified.  The port type is opaque to the behaviour. -/
def getAudioPort (AudioPort : Type) (s : DeviceState) (port : AudioPort) :
    Result × AudioPort × DeviceState :=
  (Result.NOT_SUPPORTED, port, s)

/-- DeviceImpl::setAudioPortConfig (lines 140-142): NOT_SUPPORTED, no
state change. -/
def setAudioPortConfig (AudioPortConfig : Type) (s : DeviceState)
    (config : AudioPortConfig) : Result × DeviceState :=
  (Result.NOT_SUPPORTED, s)

/-- DeviceImpl::getHwAvSync (lines 144-147): `(NOT_SUPPORTED, 0)`. -/
def getHwAvSync (s : DeviceState) : Result × Nat × DeviceState :=
  (Result.NOT_SUPPORTED, 0, s)

/-- DeviceImpl::setScreenState (lines 149-151): NOT_SUPPORTED, no state
change. -/
def setScreenState (s : DeviceState) (turnedOn : Bool) : Result × DeviceState :=
  (Result.NOT_SUPPORTED, s)

/-- DeviceImpl::getParameters (lines 153-158): answers
`(NOT_SUPPORTED, hidl_vec<ParameterValue>())` — the empty list. -/
def getParameters (ParameterValue Key : Type) (s : DeviceState)
    (context : List ParameterValue) (keys : List Key) :
    Result × List ParameterValue × DeviceState :=
  (Result.NOT_SUPPORTED, [], s)

/-- DeviceImpl::setParameters (lines 160-164): NOT_SUPPORTED, no state
change. -/
def setParameters (ParameterValue : Type) (s : DeviceState)
    (context parameters : List ParameterValue) : Result × DeviceState :=
  (Result.NOT_SUPPORTED, s)

/-- DeviceImpl::getMicrophones (lines 166-169): answers
`(NOT_SUPPORTED, hidl_vec<MicrophoneInfo>())` — the empty list. -/
def getMicrophones (MicrophoneInfo : Type) (s : DeviceState) :
    Result × List MicrophoneInfo × DeviceState :=
  (Result.NOT_SUPPORTED, [], s)

/-- DeviceImpl::setConnectedState (lines 171-174): ignores both
arguments and returns OK with no state change. -/
def setConnectedState (Address : Type) (s : DeviceState) (address : Address)
    (connected : Bool) : Result × DeviceState :=
  (Result.OK, s)

/-- DeviceImpl::addDeviceEffect (lines 196-199): NOT_SUPPORTED, no state
change. -/
def addDeviceEffect (s : DeviceState) (device : Nat) (effectId : Nat) :
    Result × DeviceState :=
  (Result.NOT_SUPPORTED, s)

/-- DeviceImpl::removeDeviceEffect (lines 201-204): NOT_SUPPORTED, no
state change. -/
def removeDeviceEffect (s : DeviceState) (device : Nat) (effectId : Nat) :
    Result × DeviceState :=
  (Result.NOT_SUPPORTED, s)

/-- Counterexample to C8 as stated: getAudioPort's payload is not a
fixed zero/false/empty default — it is the queried port echoed back, so
two different queries yield two different payloads (7 versus 0). -/
theorem getAudioPort_payload_not_fixed :
    (getAudioPort Nat initState 7).2.1 = 7 ∧
    (getAudioPort Nat initState 7).2.1 ≠ (getAudioPort Nat initState 0).2.1 := by
  exact ⟨rfl, by decide⟩

/-- C8 (amended): every unsupported capability operation returns
NOT_SUPPORTED and leaves the device state (open-handle set and allocator
counter) unchanged, with its default payload where one is required —
zero for master volume, input-buffer size and HW-AV-sync, false for the
mute queries, the empty list for parameters and microphones, a null
stream for openInputStream — except that getAudioPort echoes the queried
port back as its payload (and openInputStream echoes the requested
config beside the null stream); setConnectedState unconditionally
returns OK with no state change. -/
theorem unsupported_ops_fixed_behavior
    (Volume StreamIn AudioPort AudioPortConfig ParameterValue Key MicrophoneInfo
      Address : Type)
    (s : DeviceState) (volume : Volume) (mute : Bool) (config : AudioConfig)
    (port : AudioPort) (portConfig : AudioPortConfig) (turnedOn : Bool)
    (context parameters : List ParameterValue) (keys : List Key)
    (address : Address) (connected : Bool) (device effectId : Nat) :
    setMasterVolume Volume s volume = (Result.NOT_SUPPORTED, s) ∧
    getMasterVolume s = (Result.NOT_SUPPORTED, 0, s) ∧
    setMicMute s mute = (Result.NOT_SUPPORTED, s) ∧
    getMicMute s = (Result.NOT_SUPPORTED, false, s) ∧
    setMasterMute s mute = (Result.NOT_SUPPORTED, s) ∧
    getMasterMute s = (Result.NOT_SUPPORTED, false, s) ∧
    getInputBufferSize s config = (Result.NOT_SUPPORTED, 0, s) ∧
    openInputStream StreamIn s config = (Result.NOT_SUPPORTED, none, config, s) ∧
    getAudioPort AudioPort s port = (Result.NOT_SUPPORTED, port, s) ∧
    setAudioPortConfig AudioPortConfig s portConfig = (Result.NOT_SUPPORTED, s) ∧
    getHwAvSync s = (Result.NOT_SUPPORTED, 0, s) ∧
    setScreenState s turnedOn = (Result.NOT_SUPPORTED, s) ∧
    getParameters ParameterValue Key s context keys
      = (Result.NOT_SUPPORTED, [], s) ∧
    setParameters ParameterValue s context parameters
      = (Result.NOT_SUPPORTED, s) ∧
    getMicrophones MicrophoneInfo s = (Result.NOT_SUPPORTED, [], s) ∧
    addDeviceEffect s device effectId = (Result.NOT_SUPPORTED, s) ∧
    removeDeviceEffect s device effectId = (Result.NOT_SUPPORTED, s) ∧
    setConnectedState Address s address connected = (Result.OK, s) :=
  ⟨rfl, rfl, rfl, rfl, rfl, rfl, rfl, rfl, rfl, rfl, rfl, rfl, rfl, rfl, rfl,
   rfl, rfl, rfl⟩

end DeviceImpl
